import Mathlib

/-!
Shallow embedding of `app.py` from the `AI-Backend` repository (a Flask
service exposing an image decoder, a YOLO-based card localizer, an OCR
text extractor, a face comparator and an object tagger over four HTTP
routes).

Modelling conventions:
* Python `str` values flowing through `decode_image` are modelled as
  `List Char`; byte buffers as `List Nat`.
* A decoded image (`numpy` array of shape `(h, w, 3)`) is a list of rows
  of pixels; `image[y1:y2, x1:x2]` is `subGrid`.
* External library calls (`base64.b64decode`, `cv2.imdecode`, the YOLO
  detector, the OCR reader, `DeepFace.verify`) are oracle parameters.
  `cv2.imdecode` never raises on unparseable bytes: it returns `None`,
  modelled as `Option PixelGrid` with `none` for the unparseable case.
* YOLO box coordinates are modelled as integers (the code casts each
  winning coordinate with `int(...)`); confidences are exact rationals.
* Exceptions are modelled with `Except String`; the `try/except` at each
  endpoint maps `Except.error e` to a 500 response carrying `e`.
-/

/-- One pixel: a blue-green-red triple of 8-bit values. -/
abbrev Pixel := Nat × Nat × Nat

/-- A decoded image: rows of pixels (numpy array of shape (h, w, 3)). -/
abbrev PixelGrid := List (List Pixel)

/-- `image.shape[0]`. -/
def gridHeight (g : PixelGrid) : Nat := g.length

/-- `image.shape[1]` (width taken from the first row, numpy arrays being
rectangular). -/
def gridWidth (g : PixelGrid) : Nat := (g.headD []).length

/-- Numpy slice `image[y1:y2, x1:x2]` for non-negative bounds. -/
def subGrid (g : PixelGrid) (y1 y2 x1 x2 : Nat) : PixelGrid :=
  ((g.drop y1).take (y2 - y1)).map (fun row => (row.drop x1).take (x2 - x1))

/-- Python `s.split(",")` on a character list: the comma-separated
segments, empty segments included. -/
def splitOnComma : List Char → List (List Char)
  | [] => [[]]
  | c :: cs =>
    let rest := splitOnComma cs
    if c = ',' then [] :: rest
    else (c :: rest.headD []) :: rest.tail

/-- Python `"," in s`. -/
def containsComma (s : List Char) : Bool := s.any (fun c => c == ',')

/-- The header-stripping step of `decode_image`:
`if "," in image_input: image_input = image_input.split(",")[1]`.
When the string contains a comma the split has at least two segments
(`splitOnComma_two_le`), so the default-armed `getD` equals the
source's indexed access. -/
def stripHeader (s : List Char) : List Char :=
  if containsComma s then (splitOnComma s).getD 1 [] else s

/-- Spec-side definition, following the spec's words: "the substring
after the first comma". -/
def afterFirstComma (s : List Char) : List Char :=
  (s.dropWhile (fun c => c != ',')).drop 1

/-- Transport-level input to `decode_image`: a text string or a raw byte
buffer. -/
inductive ImageInput where
  | str (s : List Char)
  | bytes (b : List Nat)

/-- `decode_image`: strip a data-URI header from a string input,
base64-decode it, and hand the bytes to `cv2.imdecode`.  `b64` models
`base64.b64decode` (which may raise, here `Except.error`); `imdec`
models `cv2.imdecode`, which returns `None` (`none`) rather than
raising when the bytes are not a parseable image.  The surrounding
`try/except` re-raises any exception as
`ValueError("Invalid image input: ...")`. -/
def decode_image (b64 : List Char → Except String (List Nat))
    (imdec : List Nat → Option PixelGrid) : ImageInput → Except String (Option PixelGrid)
  | .str s =>
    match b64 (stripHeader s) with
    | .ok bs => .ok (imdec bs)
    | .error e => .error ("Invalid image input: " ++ e)
  | .bytes bs => .ok (imdec bs)

/-- YOLO bounding box after the `int(...)` casts: `(x1, y1, x2, y2)`. -/
structure Box where
  x1 : Int
  y1 : Int
  x2 : Int
  y2 : Int
deriving DecidableEq

/-- `(x2 - x1) * (y2 - y1)` as in `crop_card`. -/
def area (b : Box) : Int := (b.x2 - b.x1) * (b.y2 - b.y1)

/-- One detection result: class label, confidence, bounding box. -/
structure Det where
  cls : String
  conf : Rat
  box : Box
deriving DecidableEq

/-- The selection loop of `crop_card`: starting from
`best_box = None; max_area = 0`, update whenever `area > max_area`. -/
def bestBoxAux : List Box → Option Box × Int → Option Box × Int
  | [], acc => acc
  | b :: bs, acc => bestBoxAux bs (if area b > acc.2 then (some b, area b) else acc)

/-- The box `crop_card` settles on, if any. -/
def bestBox (boxes : List Box) : Option Box :=
  (bestBoxAux boxes (none, 0)).1

/-- Error message for `image.shape` when `image` is `None` (the
`AttributeError` Python raises there, text abridged). -/
def noneShapeMsg : String := "NoneType object has no attribute shape"

/-- `crop_card`: run the detector, pick the box of maximal area, expand
it by a 10-pixel margin clamped to the image bounds, and slice.  With no
winning box the input is returned unchanged.  The input is an
`Option PixelGrid` because `decode_image` can deliver `None`; in that
case reading `image.shape` raises. -/
def crop_card (detect : Option PixelGrid → Except String (List Det))
    (image : Option PixelGrid) : Except String (Option PixelGrid) :=
  match detect image with
  | .error e => .error e
  | .ok dets =>
    match bestBox (dets.map (fun d => d.box)) with
    | none => .ok image
    | some b =>
      match image with
      | none => .error noneShapeMsg
      | some g =>
        let w : Int := gridWidth g
        let h : Int := gridHeight g
        let cx1 := max 0 (b.x1 - 10)
        let cy1 := max 0 (b.y1 - 10)
        let cx2 := min w (b.x2 + 10)
        let cy2 := min h (b.y2 + 10)
        .ok (some (subGrid g cy1.toNat cy2.toNat cx1.toNat cx2.toNat))

/-- `splitOnComma` never returns the empty list. -/
theorem splitOnComma_ne_nil (s : List Char) : splitOnComma s ≠ [] := by
  cases s with
  | nil => simp [splitOnComma]
  | cons c cs =>
    simp only [splitOnComma]
    split <;> simp

/-- The first segment of the split is the prefix before the first comma. -/
theorem splitOnComma_headD (s : List Char) :
    (splitOnComma s).headD [] = s.takeWhile (fun c => c != ',') := by
  induction s with
  | nil => simp [splitOnComma]
  | cons c cs ih =>
    by_cases hc : c = ','
    · subst hc; simp [splitOnComma, List.takeWhile]
    · have hb : (c != ',') = true := by simp [hc]
      have hsplit : splitOnComma (c :: cs) =
          (c :: (splitOnComma cs).headD []) :: (splitOnComma cs).tail := by
        simp [splitOnComma, hc]
      rw [List.headD_eq_head?] at ih
      rw [hsplit, List.headD_cons]
      simp [List.takeWhile_cons, hc, ih]

/-- When the string contains a comma, the split has at least two
segments (so the source's `split(",")[1]` cannot fail). -/
theorem splitOnComma_two_le (s : List Char) (h : containsComma s = true) :
    2 ≤ (splitOnComma s).length := by
  induction s with
  | nil => simp [containsComma] at h
  | cons c cs ih =>
    by_cases hc : c = ','
    · subst hc
      have hne := splitOnComma_ne_nil cs
      have h1 : 0 < (splitOnComma cs).length := List.length_pos.mpr hne
      simp [splitOnComma]
      omega
    · have hcs : containsComma cs = true := by
        simp [containsComma] at h ⊢
        rcases h with h | h
        · exact absurd h hc
        · exact h
      have h2 := ih hcs
      have hne := splitOnComma_ne_nil cs
      simp only [splitOnComma, if_neg hc, List.length_cons]
      cases hrest : splitOnComma cs with
      | nil => exact absurd hrest hne
      | cons p ps =>
        rw [hrest] at h2
        simp at h2 ⊢
        omega

/-- The second segment of the split is the part of the string strictly
between the first comma and the comma after it. -/
theorem splitOnComma_getD_one (s : List Char) (h : containsComma s = true) :
    (splitOnComma s).getD 1 [] = (afterFirstComma s).takeWhile (fun c => c != ',') := by
  induction s with
  | nil => simp [containsComma] at h
  | cons c cs ih =>
    by_cases hc : c = ','
    · subst hc
      have hhead := splitOnComma_headD cs
      have hsplit : splitOnComma (',' :: cs) = [] :: splitOnComma cs := by
        simp [splitOnComma]
      rw [hsplit]
      have hdrop : afterFirstComma (',' :: cs) = cs := by
        simp [afterFirstComma, List.dropWhile_cons]
      rw [hdrop]
      cases hrest : splitOnComma cs with
      | nil => exact absurd hrest (splitOnComma_ne_nil cs)
      | cons p ps =>
        rw [hrest] at hhead
        simpa [List.getD] using hhead
    · have hcs : containsComma cs = true := by
        simp [containsComma] at h ⊢
        rcases h with h | h
        · exact absurd h hc
        · exact h
      have hsplit : splitOnComma (c :: cs) =
          (c :: (splitOnComma cs).headD []) :: (splitOnComma cs).tail := by
        simp [splitOnComma, hc]
      have hdrop : afterFirstComma (c :: cs) = afterFirstComma cs := by
        simp [afterFirstComma, List.dropWhile_cons, hc]
      rw [hsplit, hdrop, ← ih hcs]
      cases hrest : splitOnComma cs with
      | nil => exact absurd hrest (splitOnComma_ne_nil cs)
      | cons p ps => simp [List.getD]

/-- Specification of the selection loop: the accumulator either survives
unchanged or is replaced by some processed box together with its area;
the running maximum never decreases and ends at least as large as every
processed area. -/
theorem bestBoxAux_spec (bs : List Box) (acc : Option Box × Int) :
    (bestBoxAux bs acc = acc ∨ ∃ b ∈ bs, bestBoxAux bs acc = (some b, area b)) ∧
    acc.2 ≤ (bestBoxAux bs acc).2 ∧
    ∀ b ∈ bs, area b ≤ (bestBoxAux bs acc).2 := by
  induction bs generalizing acc with
  | nil => simp [bestBoxAux]
  | cons b bs ih =>
    have hstep : bestBoxAux (b :: bs) acc =
        bestBoxAux bs (if area b > acc.2 then (some b, area b) else acc) := rfl
    set acc1 := if area b > acc.2 then (some b, area b) else acc with hacc1
    obtain ⟨hmem, hmono, hbound⟩ := ih acc1
    rw [hstep]
    refine ⟨?_, ?_, ?_⟩
    · rcases hmem with hmem | ⟨b2, hb2, hb2eq⟩
      · rw [hmem, hacc1]
        split
        · exact Or.inr ⟨b, List.mem_cons_self b bs, rfl⟩
        · exact Or.inl rfl
      · exact Or.inr ⟨b2, List.mem_cons_of_mem b hb2, hb2eq⟩
    · have h1 : acc.2 ≤ acc1.2 := by
        rw [hacc1]
        by_cases hgt : area b > acc.2
        · simp only [if_pos hgt]
          omega
        · simp only [if_neg hgt]
          exact le_rfl
      omega
    · intro b2 hb2
      rcases List.mem_cons.mp hb2 with hb2 | hb2
      · subst hb2
        have h1 : area b2 ≤ acc1.2 := by
          rw [hacc1]
          by_cases hgt : area b2 > acc.2
          · simp only [if_pos hgt]
            exact le_rfl
          · simp only [if_neg hgt]
            omega
        omega
      · exact hbound b2 hb2

/-- A JSON value as it can appear in an image field of a request body. -/
inductive JVal where
  | jnull
  | jbool (b : Bool)
  | jnum (n : Int)
  | jstr (s : List Char)
deriving DecidableEq

/-- Python truthiness, as used by `if not image_data:`. -/
def truthy : JVal → Bool
  | .jnull => false
  | .jbool b => b
  | .jnum n => n != 0
  | .jstr s => !s.isEmpty

/-- Result relayed from `DeepFace.verify`. -/
structure FaceResult where
  verified : Bool
  distance : Rat
  threshold : Rat
deriving DecidableEq

/-- The external collaborators of the handlers, held read-only for the
process lifetime: `base64.b64decode`, `cv2.imdecode`, the YOLO detector,
the OCR reader and `DeepFace.verify`.  The model-invoking ones take an
`Option PixelGrid` because a `None` from `decode_image` is passed to
them unchecked; each may raise, modelled by `Except.error`. -/
structure Oracles where
  b64 : List Char → Except String (List Nat)
  imdec : List Nat → Option PixelGrid
  detect : Option PixelGrid → Except String (List Det)
  readtext : Option PixelGrid → Except String (List String)
  faceVerify : Option PixelGrid → Option PixelGrid → Except String FaceResult

/-- Error message for `np.frombuffer` applied to a non-buffer JSON value
(the `TypeError` Python raises there, wrapped by `decode_image`). -/
def nonBufferMsg : String := "Invalid image input: object does not support the buffer interface"

/-- `decode_image(image_data)` where `image_data` is a parsed-JSON field
value: a JSON string takes the string path of `decode_image`; any other
value falls to the byte-buffer branch, where `np.frombuffer` raises on a
non-buffer object and the wrapper re-raises `ValueError`. -/
def decodeField (o : Oracles) : JVal → Except String (Option PixelGrid)
  | .jstr s => decode_image o.b64 o.imdec (.str s)
  | _ => .error nonBufferMsg

/-- The per-detection append loop of `shop_verify`: class names of the
detections whose confidence is strictly above 0.4, in detection order. -/
def detectedObjects (dets : List Det) : List String :=
  (dets.filter (fun d => (0.4 : Rat) < d.conf)).map (fun d => d.cls)

/-- `list(set(detected_objects))`: the deduplicated label list (Python
set order is implementation-defined; `dedup` keeps first occurrences,
which agrees on membership and duplicate-freedom). -/
def tagObjects (dets : List Det) : List String :=
  (detectedObjects dets).dedup

/-- A JSON response body. -/
inductive Body where
  | errorMsg (msg : String)
  | rawText (ts : List String)
  | faceResult (verified : Bool) (distance threshold : Rat)
  | shopResult (objects : List String) (text : List String)
deriving DecidableEq

/-- An HTTP response: status code and JSON body. -/
structure Response where
  status : Nat
  body : Body
deriving DecidableEq

/-- The `try/except` at each endpoint: a successful body is returned
with 200, any caught exception as 500 with `{"error": str(e)}`. -/
def toResponse : Except String Body → Response
  | .ok b => ⟨200, b⟩
  | .error e => ⟨500, Body.errorMsg e⟩

/-- A parsed JSON request body, restricted to the fields the handlers
read. -/
structure Request where
  image : Option JVal
  image1 : Option JVal
  image2 : Option JVal
deriving DecidableEq

/-- The work of `verify_cnic` after the missing-field guard: decode,
crop, OCR. -/
def cnicBody (o : Oracles) (v : JVal) : Except String Body :=
  match decodeField o v with
  | .error e => .error e
  | .ok img =>
    match crop_card o.detect img with
    | .error e => .error e
    | .ok cropped =>
      match o.readtext cropped with
      | .error e => .error e
      | .ok texts => .ok (Body.rawText texts)

/-- The work of `face_verify` after the missing-field guard: decode
both images and call `DeepFace.verify`. -/
def faceBody (o : Oracles) (v1 v2 : JVal) : Except String Body :=
  match decodeField o v1 with
  | .error e => .error e
  | .ok a =>
    match decodeField o v2 with
    | .error e => .error e
    | .ok b =>
      match o.faceVerify a b with
      | .error e => .error e
      | .ok r => .ok (Body.faceResult r.verified r.distance r.threshold)

/-- The work of `shop_verify` after the missing-field guard: decode,
detect and tag objects, OCR the full frame. -/
def shopBody (o : Oracles) (v : JVal) : Except String Body :=
  match decodeField o v with
  | .error e => .error e
  | .ok img =>
    match o.detect img with
    | .error e => .error e
    | .ok dets =>
      match o.readtext img with
      | .error e => .error e
      | .ok text => .ok (Body.shopResult (tagObjects dets) text)

/-- `POST /verify-cnic`. -/
def verify_cnic (o : Oracles) (req : Request) : Response :=
  match req.image with
  | none => ⟨400, Body.errorMsg "No image provided"⟩
  | some v =>
    if truthy v then toResponse (cnicBody o v)
    else ⟨400, Body.errorMsg "No image provided"⟩

/-- `POST /face-verify`. -/
def face_verify (o : Oracles) (req : Request) : Response :=
  match req.image1, req.image2 with
  | some v1, some v2 =>
    if truthy v1 && truthy v2 then toResponse (faceBody o v1 v2)
    else ⟨400, Body.errorMsg "image1 and image2 required"⟩
  | _, _ => ⟨400, Body.errorMsg "image1 and image2 required"⟩

/-- `POST /shop-verify`. -/
def shop_verify (o : Oracles) (req : Request) : Response :=
  match req.image with
  | none => ⟨400, Body.errorMsg "No image provided"⟩
  | some v =>
    if truthy v then toResponse (shopBody o v)
    else ⟨400, Body.errorMsg "No image provided"⟩

/-- Sequential processing of a batch of `/shop-verify` requests: the
handlers keep no state across requests, so a run is the per-request map
of the handler over the batch. -/
def processAll (o : Oracles) (reqs : List Request) : List Response :=
  reqs.map (shop_verify o)

/-- A `toResponse` answer carries status 200 or 500. -/
theorem toResponse_status (r : Except String Body) :
    (toResponse r).status = 200 ∨ (toResponse r).status = 500 := by
  cases r <;> simp [toResponse]

/-- If the guarded work of `verify_cnic` raises, the handler answers 500
with the exception text. -/
theorem verify_cnic_error (o : Oracles) (req : Request) (v : JVal) (e : String)
    (h : req.image = some v) (ht : truthy v = true)
    (hb : cnicBody o v = Except.error e) :
    verify_cnic o req = ⟨500, Body.errorMsg e⟩ := by
  simp [verify_cnic, h, ht, hb, toResponse]

/-- If the guarded work of `shop_verify` raises, the handler answers 500
with the exception text. -/
theorem shop_verify_error (o : Oracles) (req : Request) (v : JVal) (e : String)
    (h : req.image = some v) (ht : truthy v = true)
    (hb : shopBody o v = Except.error e) :
    shop_verify o req = ⟨500, Body.errorMsg e⟩ := by
  simp [shop_verify, h, ht, hb, toResponse]

/-- If the guarded work of `face_verify` raises, the handler answers 500
with the exception text. -/
theorem face_verify_error (o : Oracles) (req : Request) (v1 v2 : JVal) (e : String)
    (h1 : req.image1 = some v1) (h2 : req.image2 = some v2)
    (ht1 : truthy v1 = true) (ht2 : truthy v2 = true)
    (hb : faceBody o v1 v2 = Except.error e) :
    face_verify o req = ⟨500, Body.errorMsg e⟩ := by
  simp [face_verify, h1, h2, ht1, ht2, hb, toResponse]

/-- A decode failure is the first failure of the `verify_cnic` work. -/
theorem cnicBody_decode_error (o : Oracles) (v : JVal) (e : String)
    (h : decodeField o v = Except.error e) : cnicBody o v = Except.error e := by
  simp [cnicBody, h]

/-- A decode failure is the first failure of the `shop_verify` work. -/
theorem shopBody_decode_error (o : Oracles) (v : JVal) (e : String)
    (h : decodeField o v = Except.error e) : shopBody o v = Except.error e := by
  simp [shopBody, h]

/-- A decode failure of the first image is the first failure of the
`face_verify` work. -/
theorem faceBody_decode_error (o : Oracles) (v1 v2 : JVal) (e : String)
    (h : decodeField o v1 = Except.error e) : faceBody o v1 v2 = Except.error e := by
  simp [faceBody, h]

/-- A fixed oracle set whose base64 decoder rejects every input, as the
real `base64.b64decode` does on text that is not well-formed base64. -/
def oraclesBadB64 : Oracles :=
  ⟨fun _ => Except.error "Incorrect padding",
   fun _ => none,
   fun _ => Except.ok [],
   fun _ => Except.ok [],
   fun _ _ => Except.error "face model unavailable"⟩

/-- A request carrying the (undecodable) string "abc" in every image
field. -/
def reqBad : Request :=
  ⟨some (JVal.jstr ['a', 'b', 'c']), some (JVal.jstr ['a', 'b', 'c']),
   some (JVal.jstr ['a', 'b', 'c'])⟩

/-- A request with every field absent. -/
def reqEmpty : Request := ⟨none, none, none⟩

/-- Claim C1 (code bug): on a byte buffer that is not a parseable image,
`cv2.imdecode` returns `None` instead of raising, so `decode_image`
returns the value `None` rather than failing with the documented
`InvalidImage` (`ValueError`) error.  The `imdec` oracle here returns
`none`, as `cv2.imdecode` does on any non-image or truncated buffer. -/
theorem decode_image_nonimage_bytes_returns_none :
    decode_image (fun _ => Except.ok []) (fun _ => none) (ImageInput.bytes [0, 1, 2]) =
      Except.ok none := rfl

/-- Claim C2 counterexample: a request whose image field is the
undecodable string "abc" is answered with status 500, not with a
4xx-equivalent status. -/
theorem verify_cnic_undecodable_not_4xx :
    verify_cnic oraclesBadB64 reqBad =
      ⟨500, Body.errorMsg ("Invalid image input: " ++ "Incorrect padding")⟩ ∧
    ¬((verify_cnic oraclesBadB64 reqBad).status < 500) := by
  refine ⟨rfl, ?_⟩
  rw [show (verify_cnic oraclesBadB64 reqBad).status = 500 from rfl]
  omega

/-- Claim C2 (amended): a POST request whose supplied image data is not
decodable is answered with a 500 server-error status carrying the
failure message (only a missing or falsy required field yields 400). -/
theorem endpoints_undecodable_image_500 (o : Oracles) (req : Request)
    (v v1 v2 : JVal) (e e1 : String)
    (h : req.image = some v) (ht : truthy v = true)
    (hd : decodeField o v = Except.error e)
    (h1 : req.image1 = some v1) (h2 : req.image2 = some v2)
    (ht1 : truthy v1 = true) (ht2 : truthy v2 = true)
    (hd1 : decodeField o v1 = Except.error e1) :
    verify_cnic o req = ⟨500, Body.errorMsg e⟩ ∧
    shop_verify o req = ⟨500, Body.errorMsg e⟩ ∧
    face_verify o req = ⟨500, Body.errorMsg e1⟩ :=
  ⟨verify_cnic_error o req v e h ht (cnicBody_decode_error o v e hd),
   shop_verify_error o req v e h ht (shopBody_decode_error o v e hd),
   face_verify_error o req v1 v2 e1 h1 h2 ht1 ht2 (faceBody_decode_error o v1 v2 e1 hd1)⟩

/-- Witness for C2 (amended) at the concrete bad-base64 request. -/
theorem endpoints_undecodable_image_500_witness :
    verify_cnic oraclesBadB64 reqBad =
      ⟨500, Body.errorMsg ("Invalid image input: " ++ "Incorrect padding")⟩ ∧
    shop_verify oraclesBadB64 reqBad =
      ⟨500, Body.errorMsg ("Invalid image input: " ++ "Incorrect padding")⟩ ∧
    face_verify oraclesBadB64 reqBad =
      ⟨500, Body.errorMsg ("Invalid image input: " ++ "Incorrect padding")⟩ :=
  endpoints_undecodable_image_500 oraclesBadB64 reqBad
    (JVal.jstr ['a', 'b', 'c']) (JVal.jstr ['a', 'b', 'c']) (JVal.jstr ['a', 'b', 'c'])
    ("Invalid image input: " ++ "Incorrect padding")
    ("Invalid image input: " ++ "Incorrect padding")
    rfl rfl rfl rfl rfl rfl rfl rfl

/-- A data-URI-shaped string whose payload part itself contains a comma. -/
def s3cex : List Char := ['h', ',', 'a', ',', 'b']

/-- Claim C3 counterexample: on "h,a,b" the decoder uses "a" (the
segment between the first two commas) as payload, not "a,b" (the
substring after the first comma). -/
theorem stripHeader_not_after_first_comma :
    containsComma s3cex = true ∧ stripHeader s3cex ≠ afterFirstComma s3cex := by
  decide

/-- Claim C3 (amended): for a comma-containing string input, the base64
payload used by `decode_image` is the substring after the first comma
truncated at the next comma (the second comma-separated segment); the
header before the first comma is discarded.  When the part after the
first comma contains no further comma this is exactly the substring
after the first comma. -/
theorem stripHeader_second_segment (s : List Char) (h : containsComma s = true) :
    stripHeader s = (afterFirstComma s).takeWhile (fun c => c != ',') := by
  rw [stripHeader, if_pos h]
  exact splitOnComma_getD_one s h

/-- A one-comma data-URI-shaped string. -/
def s3ok : List Char := ['h', 'd', 'r', ',', 'P', 'A', 'Y']

/-- Witness for C3 (amended) at the concrete string "hdr,PAY". -/
theorem stripHeader_second_segment_witness :
    containsComma s3ok = true ∧
    stripHeader s3ok = (afterFirstComma s3ok).takeWhile (fun c => c != ',') :=
  ⟨by decide, stripHeader_second_segment s3ok (by decide)⟩

/-- Claim C4: with a non-empty detection set (boxes well-formed per the
data model, `x1 < x2` and `y1 < y2`), `crop_card` settles on a box whose
area is maximal (and is in particular the box of strictly greatest area
when one exists), expands it by the fixed 10-pixel margin clamped to the
image bounds, and the returned sub-grid's slice coordinates never exceed
the source dimensions. -/
theorem crop_card_selects_largest (detect : Option PixelGrid → Except String (List Det))
    (img : PixelGrid) (dets : List Det)
    (hdet : detect (some img) = Except.ok dets) (hne : dets ≠ [])
    (hvalid : ∀ d ∈ dets, d.box.x1 < d.box.x2 ∧ d.box.y1 < d.box.y2) :
    ∃ b ∈ dets.map (fun d => d.box),
      bestBox (dets.map (fun d => d.box)) = some b ∧
      (∀ b2 ∈ dets.map (fun d => d.box), area b2 ≤ area b) ∧
      crop_card detect (some img) = Except.ok (some (subGrid img
        (max 0 (b.y1 - 10)).toNat (min (gridHeight img : Int) (b.y2 + 10)).toNat
        (max 0 (b.x1 - 10)).toNat (min (gridWidth img : Int) (b.x2 + 10)).toNat)) ∧
      (min (gridHeight img : Int) (b.y2 + 10)).toNat ≤ gridHeight img ∧
      (min (gridWidth img : Int) (b.x2 + 10)).toNat ≤ gridWidth img := by
  obtain ⟨hmem, hmono, hbound⟩ := bestBoxAux_spec (dets.map (fun d => d.box)) (none, 0)
  rcases hmem with hid | ⟨b, hb, heq⟩
  · exfalso
    obtain ⟨d0, hd0⟩ := List.exists_mem_of_ne_nil dets hne
    obtain ⟨hx, hy⟩ := hvalid d0 hd0
    have harea : 0 < area d0.box := by
      have := mul_pos (a := d0.box.x2 - d0.box.x1) (b := d0.box.y2 - d0.box.y1)
        (by omega) (by omega)
      simpa [area] using this
    have hle := hbound d0.box (List.mem_map_of_mem _ hd0)
    rw [hid] at hle
    simp at hle
    omega
  · have hbb : bestBox (dets.map (fun d => d.box)) = some b := by
      rw [bestBox, heq]
    refine ⟨b, hb, hbb, ?_, ?_, ?_, ?_⟩
    · intro b2 hb2
      have hle := hbound b2 hb2
      rw [heq] at hle
      simpa using hle
    · simp [crop_card, hdet, hbb]
    · exact Int.toNat_le.mpr (min_le_left _ _)
    · exact Int.toNat_le.mpr (min_le_left _ _)

/-- A 20 x 30 all-black test image. -/
def imgW : PixelGrid := List.replicate 20 (List.replicate 30 (0, 0, 0))

/-- A concrete detection on `imgW`. -/
def detW : Det := ⟨"card", 9/10, ⟨2, 3, 12, 15⟩⟩

/-- A detector oracle that always reports exactly `detW`. -/
def detectW : Option PixelGrid → Except String (List Det) := fun _ => Except.ok [detW]

/-- Witness for C4 at the concrete single-detection image. -/
theorem crop_card_selects_largest_witness :
    ∃ b ∈ [detW].map (fun d => d.box),
      bestBox ([detW].map (fun d => d.box)) = some b ∧
      (∀ b2 ∈ [detW].map (fun d => d.box), area b2 ≤ area b) ∧
      crop_card detectW (some imgW) = Except.ok (some (subGrid imgW
        (max 0 (b.y1 - 10)).toNat (min (gridHeight imgW : Int) (b.y2 + 10)).toNat
        (max 0 (b.x1 - 10)).toNat (min (gridWidth imgW : Int) (b.x2 + 10)).toNat)) ∧
      (min (gridHeight imgW : Int) (b.y2 + 10)).toNat ≤ gridHeight imgW ∧
      (min (gridWidth imgW : Int) (b.x2 + 10)).toNat ≤ gridWidth imgW :=
  crop_card_selects_largest detectW imgW [detW] rfl (by simp)
    (by intro d hd; simp at hd; subst hd; exact ⟨by decide, by decide⟩)

/-- Claim C5: when the detector reports zero boxes, `crop_card` returns
the input image itself — hence a grid of identical dimensions — and no
error. -/
theorem crop_card_zero_detections_identity
    (detect : Option PixelGrid → Except String (List Det)) (img : PixelGrid)
    (h : detect (some img) = Except.ok []) :
    crop_card detect (some img) = Except.ok (some img) := by
  simp [crop_card, h, bestBox, bestBoxAux]

/-- A detector oracle that never reports a box. -/
def detectZ : Option PixelGrid → Except String (List Det) := fun _ => Except.ok []

/-- Witness for C5 at the concrete test image. -/
theorem crop_card_zero_detections_identity_witness :
    crop_card detectZ (some imgW) = Except.ok (some imgW) :=
  crop_card_zero_detections_identity detectZ imgW rfl

/-- A detection whose confidence is exactly the 0.4 threshold. -/
def detThr : Det := ⟨"person", 0.4, ⟨0, 0, 5, 5⟩⟩

/-- Claim C6 counterexample: a detection with confidence exactly 0.4
(which satisfies "confidence ≥ 0.4") contributes no label — the code
filters with a strict `conf > 0.4`. -/
theorem tagObjects_at_threshold_excluded :
    (0.4 : Rat) ≤ detThr.conf ∧ tagObjects [detThr] = [] := by
  constructor
  · exact le_rfl
  · simp [tagObjects, detectedObjects, detThr]

/-- Claim C6 (amended): the tagger's output is the deduplicated set of
labels of the detections with confidence strictly greater than 0.4: a
label is in the output exactly when some detection carries it with
confidence above 0.4, and the output never contains duplicates. -/
theorem tagObjects_strict_threshold_dedup (dets : List Det) :
    (tagObjects dets).Nodup ∧
    ∀ lab : String, lab ∈ tagObjects dets ↔
      ∃ d ∈ dets, (0.4 : Rat) < d.conf ∧ d.cls = lab := by
  constructor
  · exact (detectedObjects dets).nodup_dedup
  · intro lab
    simp [tagObjects, detectedObjects, List.mem_dedup, List.mem_filter, and_assoc]

/-- Claim C7: a `/face-verify` request with `image1` absent is answered
400 with a message, the answer is the same under every oracle set (so in
particular no face-model call can influence it), and likewise a missing
`image` field on the other POST routes yields 400. -/
theorem face_verify_missing_image1_400 (o : Oracles) (req : Request)
    (h1 : req.image1 = none) :
    face_verify o req = ⟨400, Body.errorMsg "image1 and image2 required"⟩ ∧
    (∀ o2 : Oracles, face_verify o2 req = face_verify o req) ∧
    (req.image = none →
      verify_cnic o req = ⟨400, Body.errorMsg "No image provided"⟩ ∧
      shop_verify o req = ⟨400, Body.errorMsg "No image provided"⟩) := by
  have hface : ∀ o2 : Oracles,
      face_verify o2 req = ⟨400, Body.errorMsg "image1 and image2 required"⟩ := by
    intro o2
    cases h2 : req.image2 <;> simp [face_verify, h1, h2]
  refine ⟨hface o, fun o2 => (hface o2).trans (hface o).symm, fun himg => ⟨?_, ?_⟩⟩
  · simp [verify_cnic, himg]
  · simp [shop_verify, himg]

/-- Witness for C7 at the all-fields-absent request. -/
theorem face_verify_missing_image1_400_witness :
    face_verify oraclesBadB64 reqEmpty = ⟨400, Body.errorMsg "image1 and image2 required"⟩ ∧
    verify_cnic oraclesBadB64 reqEmpty = ⟨400, Body.errorMsg "No image provided"⟩ :=
  ⟨(face_verify_missing_image1_400 oraclesBadB64 reqEmpty rfl).1,
   ((face_verify_missing_image1_400 oraclesBadB64 reqEmpty rfl).2.2 rfl).1⟩

/-- Every handler answer has status 200, 400 or 500: no request makes a
handler fail to produce a response. -/
theorem handler_status_cases (o : Oracles) (req : Request) :
    ((verify_cnic o req).status = 200 ∨ (verify_cnic o req).status = 400 ∨
      (verify_cnic o req).status = 500) ∧
    ((face_verify o req).status = 200 ∨ (face_verify o req).status = 400 ∨
      (face_verify o req).status = 500) ∧
    ((shop_verify o req).status = 200 ∨ (shop_verify o req).status = 400 ∨
      (shop_verify o req).status = 500) := by
  refine ⟨?_, ?_, ?_⟩
  · cases hi : req.image with
    | none => simp [verify_cnic, hi]
    | some v =>
      by_cases htv : truthy v
      · have := toResponse_status (cnicBody o v)
        simp [verify_cnic, hi, htv]
        tauto
      · simp [verify_cnic, hi, htv]
  · cases hi1 : req.image1 with
    | none => simp [face_verify, hi1]
    | some v1 =>
      cases hi2 : req.image2 with
      | none => simp [face_verify, hi1, hi2]
      | some v2 =>
        by_cases htv : truthy v1 && truthy v2
        · have := toResponse_status (faceBody o v1 v2)
          simp [face_verify, hi1, hi2, htv]
          tauto
        · simp [face_verify, hi1, hi2, htv]
  · cases hi : req.image with
    | none => simp [shop_verify, hi]
    | some v =>
      by_cases htv : truthy v
      · have := toResponse_status (shopBody o v)
        simp [shop_verify, hi, htv]
        tauto
      · simp [shop_verify, hi, htv]

/-- Claim C8: every exception raised by a decode step or model call
inside a handler body is caught at the endpoint boundary and answered
500 with the failure's textual description; and unconditionally, every
request yields a response with status 200, 400 or 500 — no request lets
an exception escape a handler. -/
theorem handlers_catch_errors_500 (o : Oracles) (req : Request)
    (v v1 v2 : JVal) (ec es ef : String)
    (h : req.image = some v) (ht : truthy v = true)
    (h1 : req.image1 = some v1) (h2 : req.image2 = some v2)
    (ht1 : truthy v1 = true) (ht2 : truthy v2 = true)
    (hc : cnicBody o v = Except.error ec)
    (hs : shopBody o v = Except.error es)
    (hf : faceBody o v1 v2 = Except.error ef) :
    verify_cnic o req = ⟨500, Body.errorMsg ec⟩ ∧
    shop_verify o req = ⟨500, Body.errorMsg es⟩ ∧
    face_verify o req = ⟨500, Body.errorMsg ef⟩ ∧
    ∀ (o2 : Oracles) (req2 : Request),
      ((verify_cnic o2 req2).status = 200 ∨ (verify_cnic o2 req2).status = 400 ∨
        (verify_cnic o2 req2).status = 500) ∧
      ((face_verify o2 req2).status = 200 ∨ (face_verify o2 req2).status = 400 ∨
        (face_verify o2 req2).status = 500) ∧
      ((shop_verify o2 req2).status = 200 ∨ (shop_verify o2 req2).status = 400 ∨
        (shop_verify o2 req2).status = 500) :=
  ⟨verify_cnic_error o req v ec h ht hc,
   shop_verify_error o req v es h ht hs,
   face_verify_error o req v1 v2 ef h1 h2 ht1 ht2 hf,
   fun o2 req2 => handler_status_cases o2 req2⟩

/-- Witness for C8 at the concrete bad-base64 request. -/
theorem handlers_catch_errors_500_witness :
    verify_cnic oraclesBadB64 reqBad =
      ⟨500, Body.errorMsg ("Invalid image input: " ++ "Incorrect padding")⟩ ∧
    shop_verify oraclesBadB64 reqBad =
      ⟨500, Body.errorMsg ("Invalid image input: " ++ "Incorrect padding")⟩ ∧
    face_verify oraclesBadB64 reqBad =
      ⟨500, Body.errorMsg ("Invalid image input: " ++ "Incorrect padding")⟩ :=
  have h := handlers_catch_errors_500 oraclesBadB64 reqBad
    (JVal.jstr ['a', 'b', 'c']) (JVal.jstr ['a', 'b', 'c']) (JVal.jstr ['a', 'b', 'c'])
    ("Invalid image input: " ++ "Incorrect padding")
    ("Invalid image input: " ++ "Incorrect padding")
    ("Invalid image input: " ++ "Incorrect padding")
    rfl rfl rfl rfl rfl rfl rfl rfl rfl
  ⟨h.1, h.2.1, h.2.2.1⟩

/-- Claim C9: in a batch run of `/shop-verify` requests, the answer at
any position is a function of the request at that position alone: the
same request placed anywhere in any two batches receives the same
answer. -/
theorem shop_verify_no_cross_contamination (o : Oracles)
    (reqs1 reqs2 : List Request) (i j : Nat) (r : Request)
    (h1 : reqs1[i]? = some r) (h2 : reqs2[j]? = some r) :
    (processAll o reqs1)[i]? = some (shop_verify o r) ∧
    (processAll o reqs1)[i]? = (processAll o reqs2)[j]? := by
  constructor <;> simp [processAll, List.getElem?_map, h1, h2]

/-- Witness for C9: the bad-base64 request placed at position 0 of one
batch and position 1 of another receives the same answer. -/
theorem shop_verify_no_cross_contamination_witness :
    (processAll oraclesBadB64 [reqBad, reqEmpty])[0]? =
      some (shop_verify oraclesBadB64 reqBad) ∧
    (processAll oraclesBadB64 [reqBad, reqEmpty])[0]? =
      (processAll oraclesBadB64 [reqEmpty, reqBad])[1]? :=
  shop_verify_no_cross_contamination oraclesBadB64 [reqBad, reqEmpty]
    [reqEmpty, reqBad] 0 1 reqBad rfl rfl

/-- Claim C10: a present-but-falsy image field (the empty string, JSON
null, and any other falsy value) is handled exactly like an absent
field: the endpoint answers the 400 missing-input error, for every
oracle set — so the value is never decoded. -/
theorem falsy_field_treated_missing_400 (o : Oracles) (req : Request) (v : JVal)
    (hv : truthy v = false) :
    (truthy JVal.jnull = false ∧ truthy (JVal.jstr []) = false) ∧
    (req.image = some v →
      verify_cnic o req = ⟨400, Body.errorMsg "No image provided"⟩ ∧
      shop_verify o req = ⟨400, Body.errorMsg "No image provided"⟩) ∧
    (req.image1 = some v →
      face_verify o req = ⟨400, Body.errorMsg "image1 and image2 required"⟩) ∧
    (req.image2 = some v →
      face_verify o req = ⟨400, Body.errorMsg "image1 and image2 required"⟩) := by
  refine ⟨⟨rfl, rfl⟩, fun h => ⟨?_, ?_⟩, fun h => ?_, fun h => ?_⟩
  · simp [verify_cnic, h, hv]
  · simp [shop_verify, h, hv]
  · cases h2 : req.image2 <;> simp [face_verify, h, h2, hv]
  · cases h1 : req.image1 <;> simp [face_verify, h1, h, hv]

/-- A request whose image fields are present but falsy. -/
def reqFalsy : Request := ⟨some (JVal.jstr []), some JVal.jnull, some (JVal.jstr [])⟩

/-- Witness for C10 at the concrete falsy-fields request. -/
theorem falsy_field_treated_missing_400_witness :
    verify_cnic oraclesBadB64 reqFalsy = ⟨400, Body.errorMsg "No image provided"⟩ ∧
    face_verify oraclesBadB64 reqFalsy = ⟨400, Body.errorMsg "image1 and image2 required"⟩ :=
  ⟨((falsy_field_treated_missing_400 oraclesBadB64 reqFalsy (JVal.jstr []) rfl).2.1 rfl).1,
   (falsy_field_treated_missing_400 oraclesBadB64 reqFalsy JVal.jnull rfl).2.2.1 rfl⟩
